import Mathlib

set_option maxHeartbeats 1000000

/-!
Shallow embedding of the citation pipeline of `src/run_pdf_citations.py`
(repository `rag-inline-citations`).

The external LlamaIndex collaborators (the sentence splitter, the retriever
and the completion model) are taken as abstract function parameters; every
operation performed by the repository code itself is translated definition
by definition.  Relevance scores are carried as their printed representation
(`Option String`), since the code only passes them through and formats them;
metadata values are likewise modelled as strings.
-/

/-- Metadata dictionary of a retrieved node, restricted to the keys that
`_split_and_number` reads (`meta.get(...)`); a missing key is `none` and a
present-but-falsy value is `some ""` (Python truthiness). -/
structure Metadata where
  file_path : Option String
  filename : Option String
  source : Option String
  page_label : Option String
  page_number : Option String
  page : Option String
deriving DecidableEq, Repr

/-- A retrieved passage (`NodeWithScore` input of `_split_and_number`):
its text content, its metadata and its optional relevance score. -/
structure NodeWithScore where
  text : String
  metadata : Metadata
  score : Option String
deriving DecidableEq, Repr

/-- Python `a or b or ... or default` over a chain of `meta.get(...)`
lookups: the first value that is present and non-empty (truthy), else the
default. -/
def firstTruthy : List (Option String) → String → String
  | [], d => d
  | none :: rest, d => firstTruthy rest d
  | some s :: rest, d => if s = "" then firstTruthy rest d else s

/-- `meta.get("file_path") or meta.get("filename") or meta.get("source")
or "unknown"` (run_pdf_citations.py line 100). -/
def passageFile (m : Metadata) : String :=
  firstTruthy [m.file_path, m.filename, m.source] "unknown"

/-- `meta.get("page_label") or meta.get("page_number") or meta.get("page")
or "?"` (run_pdf_citations.py line 101). -/
def passageLoc (m : Metadata) : String :=
  firstTruthy [m.page_label, m.page_number, m.page] "?"

/-- A numbered citation node built by `_split_and_number`: the `TextNode`
text together with its metadata fields `source_index`, `file_path`, `page`
and the wrapping `NodeWithScore`'s score, flattened into one record. -/
structure NumberedNode where
  text : String
  source_index : Nat
  file_path : String
  page : String
  score : Option String
deriving DecidableEq, Repr

/-- One entry of the printable source map built by `_split_and_number`. -/
structure SourceMapEntry where
  N : Nat
  file_path : String
  page : String
  score : Option String
  snippet : String
deriving DecidableEq, Repr

/-- `f"Source {counter}:\n{chunk}"` (run_pdf_citations.py line 104). -/
def sourceHeader (n : Nat) (chunk : String) : String :=
  "Source " ++ toString n ++ ":\n" ++ chunk

/-- The character substitution of `str.replace("\n", " ")`. -/
def subNewline (c : Char) : Char := if c = '\n' then ' ' else c

/-- `chunk[:240].replace("\n", " ")` (run_pdf_citations.py line 113). -/
def snippetOf (chunk : String) : String :=
  String.mk ((chunk.data.take 240).map subNewline)

/-- The inner loop of `_split_and_number` over the chunks of one passage
(run_pdf_citations.py lines 103-115): starting from counter value `c`, each
chunk yields one numbered node (text prefixed with `Source N:`) and one
source-map entry, and the counter increases by one per chunk. -/
def processChunks (fp pg : String) (sc : Option String) :
    Nat → List String → List NumberedNode × List SourceMapEntry
  | _, [] => ([], [])
  | c, ch :: rest =>
    let r := processChunks fp pg sc (c + 1) rest
    (⟨sourceHeader c ch, c, fp, pg, sc⟩ :: r.1,
     ⟨c, fp, pg, sc, snippetOf ch⟩ :: r.2)

/-- The outer loop of `_split_and_number` over the retrieved passages
(run_pdf_citations.py lines 94-115), with the running counter made
explicit.  `split` abstracts `SentenceSplitter.split_text` (external
LlamaIndex collaborator). -/
def splitAndNumberAux (split : String → List String) :
    Nat → List NodeWithScore → List NumberedNode × List SourceMapEntry
  | _, [] => ([], [])
  | c, p :: rest =>
    let chunks := split p.text
    let blk := processChunks (passageFile p.metadata) (passageLoc p.metadata) p.score c chunks
    let r := splitAndNumberAux split (c + chunks.length) rest
    (blk.1 ++ r.1, blk.2 ++ r.2)

/-- `_split_and_number(nodes, ...)` (run_pdf_citations.py lines 85-117),
with the splitter built from `chunk_size`/`chunk_overlap` abstracted into
the `split` parameter: returns the numbered nodes and the source map, with
the counter starting at 1. -/
def split_and_number (split : String → List String) (nodes : List NodeWithScore) :
    List NumberedNode × List SourceMapEntry :=
  splitAndNumberAux split 1 nodes

/-- The concatenation of all chunks produced for the given passages, in
processing order; used to state which raw chunk each unit came from. -/
def allChunks (split : String → List String) : List NodeWithScore → List String
  | [] => []
  | p :: rest => split p.text ++ allChunks split rest

/-- The parent passage of each produced unit, positionally: passage `p`
repeated once per chunk of `p`, in processing order. -/
def parents (split : String → List String) : List NodeWithScore → List NodeWithScore
  | [] => []
  | p :: rest => (split p.text).map (fun _ => p) ++ parents split rest

/-- Text of `CITATION_QA_TEMPLATE` before the `context_str` hole
(run_pdf_citations.py lines 46-51). -/
def qaBefore : String :=
  "You are a careful analyst. Use ONLY the numbered sources to answer.\nEach time you use information, cite it inline as [Source N]. If multiple sources support a claim, include multiple citations.\n\nSources:\n"

/-- Text of `CITATION_QA_TEMPLATE` between the `context_str` and
`query_str` holes (run_pdf_citations.py lines 51-54). -/
def qaMid : String := "\n\nQuestion:\n"

/-- Text of `CITATION_QA_TEMPLATE` after the `query_str` hole
(run_pdf_citations.py lines 54-61). -/
def qaAfter : String :=
  "\n\nRules:\n- Never invent citations or source numbers that do not exist above.\n- If the answer is not fully supported by the sources, say you don\x27t know.\n- Keep the answer concise but complete.\n\nAnswer with inline citations:"

/-- The initial (first-pass) prompt render: `CITATION_QA_TEMPLATE` with its
two holes filled.  The template text is from run_pdf_citations.py lines
46-62.  Modelled from the spec: the filling of `context_str` — joining the
numbered units' node texts with a blank line, in order — is performed by
the external response synthesizer (compact mode), not by code under src/;
the spec's Prompt Builder `renderInitial` describes exactly this render. -/
def renderInitial (query : String) (units : List NumberedNode) : String :=
  qaBefore ++ String.intercalate "\n\n" (units.map NumberedNode.text) ++
    qaMid ++ query ++ qaAfter

/-- Modelled from the spec: the Incremental Synthesizer invoked by
`answer_with_citations` via `synthesizer.asynthesize` is not code under
src/ (it is the external LlamaIndex response synthesizer).  Per the spec
(§4.3): zero units is a terminal state returning the fixed no-evidence
answer with no Completion Service call; otherwise compact (single-batch)
mode renders the initial prompt once and makes one Completion Service
call.  Returns the final answer text and the list of prompts sent to the
Completion Service. -/
def synthesize (complete : String → String) (query : String)
    (units : List NumberedNode) : String × List String :=
  if units.isEmpty then ("Empty Response", [])
  else
    let prompt := renderInitial query units
    (complete prompt, [prompt])

/-- Python `f"...{x}..."` rendering of an optional score: `None` prints as
the string `None`, a present score prints as itself. -/
def fmtScore : Option String → String
  | none => "None"
  | some s => s

/-- The two lines printed for one source-map entry
(run_pdf_citations.py lines 173-174). -/
def entryLines (s : SourceMapEntry) : List String :=
  ["[Source " ++ toString s.N ++ "] file=" ++ s.file_path ++ " page=" ++
     s.page ++ " score=" ++ fmtScore s.score,
   "  └─ " ++ s.snippet ++ "..."]

/-- The source-map rendering loop of `answer_with_citations`
(run_pdf_citations.py lines 172-176): two lines for each of the first 50
entries (`source_map[:50]`), then, when more than 50 entries exist, a
single summary line counting the rest. -/
def sourceMapLines (sm : List SourceMapEntry) : List String :=
  (sm.take 50).flatMap entryLines ++
    (if 50 < sm.length then
      ["...and " ++ toString (sm.length - 50) ++ " more chunks."]
     else [])

/-- The header line format as the source-map rendering claim words it:
`[Source <label>] file=<sourceFile> page=<location> score=<score>`, the
score rendered as `None` when absent. -/
def specHeaderLine (s : SourceMapEntry) : String :=
  "[Source " ++ toString s.N ++ "] file=" ++ s.file_path ++ " page=" ++
    s.page ++ " score=" ++ fmtScore s.score

/-- The indented snippet line following each header line. -/
def specSnippetLine (s : SourceMapEntry) : String :=
  "  └─ " ++ s.snippet ++ "..."

/-- The summary line emitted when the source map holds more than 50
entries. -/
def specOverflowLine (n : Nat) : String :=
  "...and " ++ toString (n - 50) ++ " more chunks."

/-- Observable events of one run of `answer_with_citations`: the calls to
the external collaborators and the lines printed. -/
inductive Event where
  | loadPdfs : Event
  | buildIndex : Event
  | retrieve (query : String) (topK : Nat) : Event
  | completion (prompt : String) : Event
  | printLine (line : String) : Event
deriving DecidableEq, Repr

/-- `"=" * 80`. -/
def eq80 : String := String.mk (List.replicate 80 '=')

/-- `"-" * 80`. -/
def dash80 : String := String.mk (List.replicate 80 '-')

/-- The fixed message printed when retrieval returns nothing
(run_pdf_citations.py line 137). -/
def noResultsMsg : String :=
  "No results retrieved. Try increasing --top-k or check your PDFs."

/-- Control flow of `answer_with_citations` (run_pdf_citations.py lines
119-176) as the trace of its external calls and printed lines.  `split`
abstracts the splitter family indexed by `chunk_size`/`chunk_overlap`,
`complete` the Completion Service, `retrieved` the retriever's result.
The code performs loading, index building and the retrieval call
unconditionally and contains no validation of `top_k`, `chunk_size` or
`chunk_overlap`; on empty retrieval it prints a fixed message and returns;
otherwise it splits and numbers, synthesizes (see `synthesize`), prints
the final answer and renders the source map. -/
def answer_with_citations (split : Nat → Nat → String → List String)
    (complete : String → String) (query : String)
    (top_k chunk_size chunk_overlap : Nat)
    (retrieved : List NodeWithScore) : List Event :=
  [Event.loadPdfs, Event.buildIndex, Event.retrieve query top_k] ++
    if retrieved.isEmpty then
      [Event.printLine noResultsMsg]
    else
      let r := split_and_number (split chunk_size chunk_overlap) retrieved
      let syn := synthesize complete query r.1
      Event.printLine "Generating answer..." ::
        (syn.2.map Event.completion ++
          [Event.printLine ("\n" ++ eq80), Event.printLine "FINAL ANSWER",
           Event.printLine eq80, Event.printLine syn.1,
           Event.printLine ("\n" ++ dash80),
           Event.printLine "SOURCE MAP (match these to the [Source N] citations in the answer)",
           Event.printLine dash80] ++
          (sourceMapLines r.2).map Event.printLine)

/-- Whether a character list starts with the eight characters
`Source ` followed by a decimal digit — i.e. with a concrete numbered
source label. -/
def startsWithSourceNum : List Char → Bool
  | 'S' :: 'o' :: 'u' :: 'r' :: 'c' :: 'e' :: ' ' :: d :: _ => d.isDigit
  | _ => false

/-- Whether `Source <digit>` occurs anywhere in a character list. -/
def hasSourceNum : List Char → Bool
  | [] => false
  | c :: rest => startsWithSourceNum (c :: rest) || hasSourceNum rest

/-- Provenance triple of a numbered node. -/
def unitProv (u : NumberedNode) : String × String × Option String :=
  (u.file_path, u.page, u.score)

/-- Provenance triple of a source-map entry. -/
def entryProv (e : SourceMapEntry) : String × String × Option String :=
  (e.file_path, e.page, e.score)

/-- Provenance triple of a passage, as `_split_and_number` derives it from
the metadata. -/
def passageProv (p : NodeWithScore) : String × String × Option String :=
  (passageFile p.metadata, passageLoc p.metadata, p.score)

theorem split_and_number_def (split : String → List String) (nodes : List NodeWithScore) :
    split_and_number split nodes = splitAndNumberAux split 1 nodes := rfl

theorem processChunks_fst_map_idx (fp pg : String) (sc : Option String) :
    ∀ (l : List String) (c : Nat),
      (processChunks fp pg sc c l).1.map NumberedNode.source_index = List.range' c l.length
  | [], _ => rfl
  | ch :: rest, c => by
    simp [processChunks, processChunks_fst_map_idx fp pg sc rest (c + 1), List.range'_succ]

theorem processChunks_fst_map_text (fp pg : String) (sc : Option String) :
    ∀ (l : List String) (c : Nat),
      (processChunks fp pg sc c l).1.map NumberedNode.text =
        List.zipWith sourceHeader (List.range' c l.length) l
  | [], _ => rfl
  | ch :: rest, c => by
    simp [processChunks, processChunks_fst_map_text fp pg sc rest (c + 1), List.range'_succ]

theorem processChunks_fst_map_prov (fp pg : String) (sc : Option String) :
    ∀ (l : List String) (c : Nat),
      (processChunks fp pg sc c l).1.map unitProv = List.replicate l.length (fp, pg, sc)
  | [], _ => rfl
  | ch :: rest, c => by
    simp [processChunks, processChunks_fst_map_prov fp pg sc rest (c + 1),
      List.replicate_succ, unitProv]

theorem processChunks_snd_map_N (fp pg : String) (sc : Option String) :
    ∀ (l : List String) (c : Nat),
      (processChunks fp pg sc c l).2.map SourceMapEntry.N = List.range' c l.length
  | [], _ => rfl
  | ch :: rest, c => by
    simp [processChunks, processChunks_snd_map_N fp pg sc rest (c + 1), List.range'_succ]

theorem processChunks_snd_map_prov (fp pg : String) (sc : Option String) :
    ∀ (l : List String) (c : Nat),
      (processChunks fp pg sc c l).2.map entryProv = List.replicate l.length (fp, pg, sc)
  | [], _ => rfl
  | ch :: rest, c => by
    simp [processChunks, processChunks_snd_map_prov fp pg sc rest (c + 1),
      List.replicate_succ, entryProv]

theorem processChunks_snd_map_snippet (fp pg : String) (sc : Option String) :
    ∀ (l : List String) (c : Nat),
      (processChunks fp pg sc c l).2.map SourceMapEntry.snippet = l.map snippetOf
  | [], _ => rfl
  | ch :: rest, c => by
    simp [processChunks, processChunks_snd_map_snippet fp pg sc rest (c + 1)]

theorem parents_map_prov (split : String → List String) :
    ∀ nodes : List NodeWithScore,
      (parents split nodes).map passageProv =
        List.flatMap nodes (fun p => List.replicate (split p.text).length (passageProv p))
  | [] => rfl
  | p :: rest => by
    simp [parents, parents_map_prov split rest, List.map_const']

theorem range'_split_at (c m n : Nat) :
    List.range' c (m + n) = List.range' c m ++ List.range' (c + m) n := by
  rw [Nat.add_comm m n]
  exact (List.range'_append_1 c m n).symm

theorem map_comp_const {α β γ : Type _} (g : β → γ) (b : β) (l : List α) :
    (l.map (fun _ => b)).map g = List.replicate l.length (g b) := by
  simp [List.map_map, Function.comp_def, List.map_const']

theorem aux_fst_map_idx (split : String → List String) :
    ∀ (nodes : List NodeWithScore) (c : Nat),
      (splitAndNumberAux split c nodes).1.map NumberedNode.source_index =
        List.range' c (allChunks split nodes).length
  | [], _ => rfl
  | p :: rest, c => by
    simp only [splitAndNumberAux, allChunks, List.map_append, List.length_append]
    rw [processChunks_fst_map_idx, aux_fst_map_idx split rest (c + (split p.text).length),
      range'_split_at]

theorem aux_fst_map_text (split : String → List String) :
    ∀ (nodes : List NodeWithScore) (c : Nat),
      (splitAndNumberAux split c nodes).1.map NumberedNode.text =
        List.zipWith sourceHeader (List.range' c (allChunks split nodes).length)
          (allChunks split nodes)
  | [], _ => rfl
  | p :: rest, c => by
    simp only [splitAndNumberAux, allChunks, List.map_append, List.length_append]
    rw [processChunks_fst_map_text, aux_fst_map_text split rest (c + (split p.text).length),
      range'_split_at, List.zipWith_append _ _ _ _ _ (by simp)]

theorem aux_fst_map_prov (split : String → List String) :
    ∀ (nodes : List NodeWithScore) (c : Nat),
      (splitAndNumberAux split c nodes).1.map unitProv =
        (parents split nodes).map passageProv
  | [], _ => rfl
  | p :: rest, c => by
    simp only [splitAndNumberAux, parents, List.map_append]
    rw [processChunks_fst_map_prov, aux_fst_map_prov split rest (c + (split p.text).length),
      map_comp_const]
    rfl

theorem aux_snd_map_N (split : String → List String) :
    ∀ (nodes : List NodeWithScore) (c : Nat),
      (splitAndNumberAux split c nodes).2.map SourceMapEntry.N =
        List.range' c (allChunks split nodes).length
  | [], _ => rfl
  | p :: rest, c => by
    simp only [splitAndNumberAux, allChunks, List.map_append, List.length_append]
    rw [processChunks_snd_map_N, aux_snd_map_N split rest (c + (split p.text).length),
      range'_split_at]

theorem aux_snd_map_prov (split : String → List String) :
    ∀ (nodes : List NodeWithScore) (c : Nat),
      (splitAndNumberAux split c nodes).2.map entryProv =
        (parents split nodes).map passageProv
  | [], _ => rfl
  | p :: rest, c => by
    simp only [splitAndNumberAux, parents, List.map_append]
    rw [processChunks_snd_map_prov, aux_snd_map_prov split rest (c + (split p.text).length),
      map_comp_const]
    rfl

theorem aux_snd_map_snippet (split : String → List String) :
    ∀ (nodes : List NodeWithScore) (c : Nat),
      (splitAndNumberAux split c nodes).2.map SourceMapEntry.snippet =
        (allChunks split nodes).map snippetOf
  | [], _ => rfl
  | p :: rest, c => by
    simp only [splitAndNumberAux, allChunks, List.map_append]
    rw [processChunks_snd_map_snippet, aux_snd_map_snippet split rest (c + (split p.text).length)]

theorem aux_fst_length (split : String → List String) (nodes : List NodeWithScore) (c : Nat) :
    (splitAndNumberAux split c nodes).1.length = (allChunks split nodes).length := by
  have h := congrArg List.length (aux_fst_map_idx split nodes c)
  simpa using h

theorem aux_snd_length (split : String → List String) (nodes : List NodeWithScore) (c : Nat) :
    (splitAndNumberAux split c nodes).2.length = (allChunks split nodes).length := by
  have h := congrArg List.length (aux_snd_map_N split nodes c)
  simpa using h

theorem aux_nil_of_empty (split : String → List String) :
    ∀ (nodes : List NodeWithScore) (c : Nat),
      (∀ p ∈ nodes, split p.text = []) → splitAndNumberAux split c nodes = ([], [])
  | [], _, _ => rfl
  | p :: rest, c, h => by
    have hp : split p.text = [] := h p (by simp)
    have hr := aux_nil_of_empty split rest c (fun q hq => h q (by simp [hq]))
    simp [splitAndNumberAux, hp, processChunks, hr]

theorem map_eq_imp_zip {α β γ : Type} (f : α → γ) (g : β → γ) :
    ∀ (l1 : List α) (l2 : List β), l1.map f = l2.map g →
      ∀ x y, (x, y) ∈ l1.zip l2 → f x = g y := by
  intro l1
  induction l1 with
  | nil => intro l2 h x y hm; simp at hm
  | cons a t ih =>
    intro l2 h x y hm
    cases l2 with
    | nil => simp at hm
    | cons b t2 =>
      simp only [List.map_cons, List.cons.injEq] at h
      simp only [List.zip_cons_cons, List.mem_cons] at hm
      rcases hm with h1 | h2
      · have hx : x = a := congrArg Prod.fst h1
        have hy : y = b := congrArg Prod.snd h1
        subst hx; subst hy
        exact h.1
      · exact ih t2 h.2 x y h2

theorem entryLines_flat_length :
    ∀ l : List SourceMapEntry, (l.flatMap entryLines).length = 2 * l.length
  | [] => rfl
  | e :: rest => by
    simp [entryLines, entryLines_flat_length rest]
    omega

theorem snippetOf_length_le (ch : String) : (snippetOf ch).length ≤ 240 := by
  have h : (snippetOf ch).length = ((ch.data.take 240).map subNewline).length := rfl
  rw [h, List.length_map, List.length_take]
  exact min_le_left _ _

theorem snippetOf_no_newline (ch : String) : ∀ c ∈ (snippetOf ch).data, c ≠ '\n' := by
  intro c hc
  have h : c ∈ (ch.data.take 240).map subNewline := hc
  obtain ⟨a, _, rfl⟩ := List.mem_map.mp h
  by_cases ha : a = '\n'
  · simp [subNewline, ha]
  · simp [subNewline, ha]

/-- Claim C1: for every ordered sequence of retrieved passages (in
particular every non-empty one) and every splitter behaviour, the labels
assigned by `_split_and_number` are exactly the contiguous integers
`1..N`, strictly increasing, in passage-retrieval order and then
intra-passage chunk order: the label list equals `[1, 2, ..., N]` where
`N` is the number of produced units, so the single counter starts at 1
and is never reset or reused within one execution. -/
theorem C1_labels_contiguous_increasing (split : String → List String)
    (nodes : List NodeWithScore) :
    (split_and_number split nodes).1.map NumberedNode.source_index =
      List.range' 1 (split_and_number split nodes).1.length := by
  simp only [split_and_number_def]
  rw [aux_fst_length]
  exact aux_fst_map_idx split nodes 1

/-- Claim C2 counterexample: on a single passage `"hello"` that splits
into the single raw chunk `"hello"`, the unit stored by
`_split_and_number` has text `"Source 1:\nhello"`, which differs from the
raw chunk: the `Source N:` rendering markup is added at chunking time,
not only at prompt-render time. -/
theorem C2_counterexample :
    (split_and_number (fun s => [s])
        [⟨"hello", ⟨none, none, none, none, none, none⟩, none⟩]).1.map NumberedNode.text =
      ["Source 1:\nhello"] ∧
    allChunks (fun s => [s])
        [⟨"hello", ⟨none, none, none, none, none, none⟩, none⟩] = ["hello"] ∧
    ("Source 1:\nhello" : String) ≠ "hello" := by
  refine ⟨by decide, by decide, by decide⟩

/-- Claim C2 amended: for every CitationUnit produced by the Citation
Chunker, the unit's stored text equals `"Source <label>:\n"` followed by
the raw chunk of its parent passage — the `Source N:` prefix is applied
by `_split_and_number` itself at chunking time (the source-map snippet,
in contrast, is taken from the raw chunk). -/
theorem C2_amended_text_is_prefixed_chunk (split : String → List String)
    (nodes : List NodeWithScore) :
    (split_and_number split nodes).1.map NumberedNode.text =
      List.zipWith sourceHeader (List.range' 1 (allChunks split nodes).length)
        (allChunks split nodes) :=
  aux_fst_map_text split nodes 1

/-- Claim C3 counterexample: with `chunk_overlap = 512 >= chunk_size =
512` and `top_k = 0`, the run still performs the retrieval call — the
configuration is not rejected before retrieval. -/
theorem C3_counterexample :
    (512 : Nat) ≤ 512 ∧ (0 : Nat) ≤ 0 ∧
    Event.retrieve "q" 0 ∈
      answer_with_citations (fun _ _ s => [s]) (fun _ => "answer") "q" 0 512 512 [] := by
  refine ⟨by decide, by decide, by decide⟩

/-- Claim C3 amended: the program performs no configuration validation at
all — for every configuration, including `chunkOverlap >= chunkSize` and
`topK <= 0`, the run unconditionally begins with loading, index building
and the retrieval call; any failure from a degenerate overlap can arise
only in the external splitter after retrieval, and a non-positive `topK`
is never rejected by this code. -/
theorem C3_amended_retrieval_unconditional (split : Nat → Nat → String → List String)
    (complete : String → String) (query : String)
    (top_k chunk_size chunk_overlap : Nat) (retrieved : List NodeWithScore) :
    (answer_with_citations split complete query top_k chunk_size chunk_overlap
        retrieved).take 3 =
      [Event.loadPdfs, Event.buildIndex, Event.retrieve query top_k] := rfl

/-- Claim C4: when retrieval returns zero passages, or every retrieved
passage splits into zero chunks, the run makes zero Completion Service
calls, the source map is empty, and the printed terminal answer is one of
the two fixed no-evidence messages (the no-results message on empty
retrieval, the synthesizer's fixed empty answer on zero units). -/
theorem C4_no_evidence_terminal (split : Nat → Nat → String → List String)
    (complete : String → String) (query : String)
    (top_k chunk_size chunk_overlap : Nat) (retrieved : List NodeWithScore)
    (h : retrieved = [] ∨ ∀ p ∈ retrieved, split chunk_size chunk_overlap p.text = []) :
    (∀ pr, Event.completion pr ∉
        answer_with_citations split complete query top_k chunk_size chunk_overlap retrieved) ∧
    (split_and_number (split chunk_size chunk_overlap) retrieved).2 = [] ∧
    (Event.printLine noResultsMsg ∈
        answer_with_citations split complete query top_k chunk_size chunk_overlap retrieved ∨
      Event.printLine "Empty Response" ∈
        answer_with_citations split complete query top_k chunk_size chunk_overlap retrieved) := by
  cases retrieved with
  | nil =>
    refine ⟨?_, rfl, Or.inl ?_⟩
    · intro pr
      simp [answer_with_citations]
    · simp [answer_with_citations]
  | cons p rest =>
    have hall : ∀ q ∈ p :: rest, split chunk_size chunk_overlap q.text = [] := by
      rcases h with h1 | h2
      · exact absurd h1 (by simp)
      · exact h2
    have hz : splitAndNumberAux (split chunk_size chunk_overlap) 1 (p :: rest) = ([], []) :=
      aux_nil_of_empty _ _ 1 hall
    refine ⟨?_, ?_, Or.inr ?_⟩
    · intro pr
      simp [answer_with_citations, split_and_number_def, hz, synthesize, sourceMapLines]
    · rw [split_and_number_def, hz]
    · simp [answer_with_citations, split_and_number_def, hz, synthesize, sourceMapLines]

/-- Claim C4 witness: the empty-retrieval instance of
`C4_no_evidence_terminal`. -/
theorem C4_no_evidence_terminal_witness :
    (([] : List NodeWithScore) = [] ∨
      ∀ p ∈ ([] : List NodeWithScore),
        ((fun _ _ s => [s]) : Nat → Nat → String → List String) 512 20 p.text = []) ∧
    ((∀ pr, Event.completion pr ∉
        answer_with_citations (fun _ _ s => [s]) (fun _ => "a") "q" 4 512 20 []) ∧
      (split_and_number (((fun _ _ s => [s]) : Nat → Nat → String → List String) 512 20)
        []).2 = [] ∧
      (Event.printLine noResultsMsg ∈
          answer_with_citations (fun _ _ s => [s]) (fun _ => "a") "q" 4 512 20 [] ∨
        Event.printLine "Empty Response" ∈
          answer_with_citations (fun _ _ s => [s]) (fun _ => "a") "q" 4 512 20 [])) :=
  ⟨Or.inl rfl, C4_no_evidence_terminal _ _ _ _ _ _ _ (Or.inl rfl)⟩

/-- Claim C5: every unit produced by `_split_and_number` carries exactly
its parent passage's provenance, unchanged by chunking: the list of
`(file, page, score)` triples of the units equals the list of derived
`(file, page, score)` triples of their positional parent passages, so all
chunks of one passage share that passage's file/page/score. -/
theorem C5_provenance_unchanged (split : String → List String)
    (nodes : List NodeWithScore) :
    (split_and_number split nodes).1.map unitProv =
      (parents split nodes).map passageProv :=
  aux_fst_map_prov split nodes 1

/-- Claim C6: the source map built by `_split_and_number` has exactly one
entry per unit (`len(entries) = len(units)`), its labels are `1..N` in
label order, each entry passes its parent passage's score and location
through verbatim (an absent score stays absent), and each snippet is the
bounded 240-character preview of the unit's raw chunk. -/
theorem C6_source_map_builder (split : String → List String)
    (nodes : List NodeWithScore) :
    (split_and_number split nodes).2.length = (split_and_number split nodes).1.length ∧
    (split_and_number split nodes).2.map SourceMapEntry.N =
      List.range' 1 (split_and_number split nodes).2.length ∧
    (split_and_number split nodes).2.map entryProv =
      (parents split nodes).map passageProv ∧
    (split_and_number split nodes).2.map SourceMapEntry.snippet =
      (allChunks split nodes).map snippetOf := by
  simp only [split_and_number_def]
  refine ⟨(aux_snd_length split nodes 1).trans (aux_fst_length split nodes 1).symm,
    ?_, aux_snd_map_prov split nodes 1, aux_snd_map_snippet split nodes 1⟩
  rw [aux_snd_length]
  exact aux_snd_map_N split nodes 1

/-- Claim C7 counterexample: a passage whose metadata lacks every
location key gets location `"?"` on its unit, not the sentinel
`"unknown"` (which is the missing-file sentinel). -/
theorem C7_counterexample :
    (split_and_number (fun s => [s])
        [⟨"hello", ⟨none, none, none, none, none, none⟩, none⟩]).1.map NumberedNode.page =
      ["?"] ∧ ("?" : String) ≠ "unknown" := by
  refine ⟨by decide, by decide⟩

/-- Claim C7 amended: for every passage whose metadata lacks a location
(none of `page_label`, `page_number`, `page` is present), every
CitationUnit derived from that passage is assigned the fixed sentinel
string `"?"` as its location. -/
theorem C7_amended_missing_location (split : String → List String)
    (nodes : List NodeWithScore) (u : NumberedNode) (p : NodeWithScore)
    (hm : (u, p) ∈ (split_and_number split nodes).1.zip (parents split nodes))
    (h1 : p.metadata.page_label = none) (h2 : p.metadata.page_number = none)
    (h3 : p.metadata.page = none) :
    u.page = "?" := by
  have h := map_eq_imp_zip unitProv passageProv
    (split_and_number split nodes).1 (parents split nodes)
    (aux_fst_map_prov split nodes 1) u p hm
  have hpage : u.page = passageLoc p.metadata := congrArg (fun t => t.2.1) h
  rw [hpage]
  simp [passageLoc, firstTruthy, h1, h2, h3]

/-- Claim C7 amended witness: a concrete unit of a location-less passage
gets location `"?"`. -/
theorem C7_amended_missing_location_witness :
    ((⟨"Source 1:\nhello", 1, "unknown", "?", none⟩ : NumberedNode),
      (⟨"hello", ⟨none, none, none, none, none, none⟩, none⟩ : NodeWithScore)) ∈
        (split_and_number (fun s => [s])
            [⟨"hello", ⟨none, none, none, none, none, none⟩, none⟩]).1.zip
          (parents (fun s => [s])
            [⟨"hello", ⟨none, none, none, none, none, none⟩, none⟩]) ∧
    ((⟨"hello", ⟨none, none, none, none, none, none⟩, none⟩ : NodeWithScore).metadata.page_label
        = none) ∧
    ((⟨"hello", ⟨none, none, none, none, none, none⟩, none⟩ : NodeWithScore).metadata.page_number
        = none) ∧
    ((⟨"hello", ⟨none, none, none, none, none, none⟩, none⟩ : NodeWithScore).metadata.page
        = none) ∧
    (⟨"Source 1:\nhello", 1, "unknown", "?", none⟩ : NumberedNode).page = "?" :=
  ⟨by decide, rfl, rfl, rfl,
    C7_amended_missing_location (fun s => [s])
      [⟨"hello", ⟨none, none, none, none, none, none⟩, none⟩]
      ⟨"Source 1:\nhello", 1, "unknown", "?", none⟩
      ⟨"hello", ⟨none, none, none, none, none, none⟩, none⟩
      (by decide) rfl rfl rfl⟩

/-- Claim C8 counterexample: a source map of 51 entries exists whose 51st
entry gets no printed line (only the first 50 are rendered, plus a
summary line), and whose absent score renders as the string `None`, not
blank. -/
theorem C8_counterexample :
    (split_and_number (fun _ => List.replicate 51 "x")
        [⟨"hello", ⟨none, none, none, none, none, none⟩, none⟩]).2.length = 51 ∧
    (split_and_number (fun _ => List.replicate 51 "x")
        [⟨"hello", ⟨none, none, none, none, none, none⟩, none⟩]).2.get? 50 =
      some ⟨51, "unknown", "?", none, "x"⟩ ∧
    "[Source 51] file=unknown page=? score=None" ∉
      sourceMapLines (split_and_number (fun _ => List.replicate 51 "x")
        [⟨"hello", ⟨none, none, none, none, none, none⟩, none⟩]).2 ∧
    "[Source 1] file=unknown page=? score=" ∉
      sourceMapLines (split_and_number (fun _ => List.replicate 51 "x")
        [⟨"hello", ⟨none, none, none, none, none, none⟩, none⟩]).2 ∧
    "[Source 1] file=unknown page=? score=None" ∈
      sourceMapLines (split_and_number (fun _ => List.replicate 51 "x")
        [⟨"hello", ⟨none, none, none, none, none, none⟩, none⟩]).2 := by
  refine ⟨by decide, by decide, by decide, by decide, by decide⟩

/-- Claim C8 amended: the textual rendering prints, for each of the
first 50 entries only, one header line `[Source <label>] file=<file>
page=<page> score=<score or None>` followed by an indented snippet line,
and when more than 50 entries exist a single summary line counting the
rest; its total line count is `2 * min 50 len` plus the optional summary
line. -/
theorem C8_amended_rendering (sm : List SourceMapEntry) :
    sourceMapLines sm =
      (sm.take 50).flatMap (fun s => [specHeaderLine s, specSnippetLine s]) ++
        (if 50 < sm.length then [specOverflowLine sm.length] else []) ∧
    (sourceMapLines sm).length =
      2 * min 50 sm.length + (if 50 < sm.length then 1 else 0) := by
  constructor
  · rfl
  · simp only [sourceMapLines, List.length_append, entryLines_flat_length,
      List.length_take]
    by_cases h : 50 < sm.length <;> simp [h]

/-- Claim C9: the initial prompt render over the units produced by
`_split_and_number` is exactly the fixed QA template around the units'
texts joined in label order — each unit embedded as
`Source <label>:` + newline + its raw chunk, with the labels exactly
`1..N`; and neither the fixed template text nor the joiner contains any
concrete `Source <digit>` label, so the render embeds no label outside
its units' own labels. -/
theorem C9_initial_prompt_labels (split : String → List String)
    (nodes : List NodeWithScore) (query : String) :
    renderInitial query (split_and_number split nodes).1 =
      qaBefore ++ String.intercalate "\n\n"
        (List.zipWith sourceHeader (List.range' 1 (allChunks split nodes).length)
          (allChunks split nodes)) ++ qaMid ++ query ++ qaAfter ∧
    (split_and_number split nodes).1.map NumberedNode.source_index =
      List.range' 1 (allChunks split nodes).length ∧
    hasSourceNum qaBefore.data = false ∧ hasSourceNum qaMid.data = false ∧
    hasSourceNum qaAfter.data = false ∧ hasSourceNum "\n\n".data = false := by
  refine ⟨?_, aux_fst_map_idx split nodes 1, by decide, by decide, by decide, by decide⟩
  simp only [renderInitial, split_and_number_def]
  rw [aux_fst_map_text split nodes 1]

/-- Claim C10: each source-map entry's snippet equals its unit's raw
chunk truncated to the first 240 characters with every newline replaced
by a space; hence every snippet has length at most 240 and contains no
newline character. -/
theorem C10_snippet_bounded (split : String → List String)
    (nodes : List NodeWithScore) (e : SourceMapEntry) (ch : String)
    (hm : (e, ch) ∈ (split_and_number split nodes).2.zip (allChunks split nodes)) :
    e.snippet = snippetOf ch ∧ e.snippet.length ≤ 240 ∧
    ∀ c ∈ e.snippet.data, c ≠ '\n' := by
  have h := map_eq_imp_zip SourceMapEntry.snippet snippetOf
    (split_and_number split nodes).2 (allChunks split nodes)
    (aux_snd_map_snippet split nodes 1) e ch hm
  refine ⟨h, ?_, ?_⟩
  · rw [h]
    exact snippetOf_length_le ch
  · rw [h]
    exact snippetOf_no_newline ch

/-- Claim C10 witness: the concrete snippet of a one-chunk passage. -/
theorem C10_snippet_bounded_witness :
    ((⟨1, "unknown", "?", none, "hello"⟩ : SourceMapEntry), ("hello" : String)) ∈
      (split_and_number (fun s => [s])
          [⟨"hello", ⟨none, none, none, none, none, none⟩, none⟩]).2.zip
        (allChunks (fun s => [s])
          [⟨"hello", ⟨none, none, none, none, none, none⟩, none⟩]) ∧
    ((⟨1, "unknown", "?", none, "hello"⟩ : SourceMapEntry).snippet = snippetOf "hello" ∧
      (⟨1, "unknown", "?", none, "hello"⟩ : SourceMapEntry).snippet.length ≤ 240 ∧
      ∀ c ∈ (⟨1, "unknown", "?", none, "hello"⟩ : SourceMapEntry).snippet.data, c ≠ '\n') :=
  ⟨by decide, C10_snippet_bounded (fun s => [s])
    [⟨"hello", ⟨none, none, none, none, none, none⟩, none⟩]
    ⟨1, "unknown", "?", none, "hello"⟩ "hello" (by decide)⟩
